import Mathlib

/-!
Shallow embedding of the TextLineServer repository.

The embedding models `src/server.py`: the configuration parser
(`parse_config`), the validated configuration object (`ServerConfig`,
including `_load_file` and `search_file`), and the per-connection request
handler (`MyTCPHandler.handle`).

Modelling conventions:
* Python strings are `List Char` (`Str`); bytes are `Nat` values (`Byte`).
* The source file on disk is a `List Str`, one element per line exactly as
  Python file iteration yields it (each element carries its trailing
  newline, except possibly the last line of the file).  An unreadable file
  (open/read raising `OSError`) is modelled by `none` in `FileState`.
* The handler is a function from the received bytes to the list of response
  frames it writes on the socket; exceptions caught inside the code are
  explicit branches of the model.
* Character-class helpers (`pyIsSpace`, `pyLowerChar`, digit parsing) follow
  Python semantics on the code points this development exercises.
-/

namespace TextLineServer

/-- A Python string, modelled by its list of characters. -/
abbrev Str := List Char

/-- Build a `Str` from a Lean string literal. -/
def str (s : String) : Str := s.toList

/-- A single byte as delivered by `socket.recv`. -/
abbrev Byte := Nat

/-- The bytes of an ASCII string literal (UTF-8 encoding is the identity on
code points below 128, so this is the wire encoding of such a literal). -/
def asciiBytes (s : String) : List Byte := s.toList.map Char.toNat

/-- Python `str.isspace` on a single character: the Unicode whitespace set
used by `str.strip()` with no arguments. -/
def pyIsSpace (c : Char) : Bool :=
  let n := c.toNat
  n == 32 || (9 ≤ n && n ≤ 13) || (28 ≤ n && n ≤ 31) || n == 133 || n == 160 ||
  n == 5760 || (8192 ≤ n && n ≤ 8202) || n == 8232 || n == 8233 ||
  n == 8239 || n == 8287 || n == 12288

/-- Strip characters satisfying `p` from the right end of a string
(the kernel of Python `str.rstrip`). -/
def pyRstrip (p : Char → Bool) (l : Str) : Str :=
  (l.reverse.dropWhile p).reverse

/-- Python `line.rstrip('\n')`: remove every trailing newline character. -/
def pyRstripNl (l : Str) : Str := pyRstrip (fun c => c == '\n') l

/-- Python `s.strip()`: remove leading and trailing whitespace. -/
def pyStrip (l : Str) : Str := pyRstrip pyIsSpace (l.dropWhile pyIsSpace)

/-- Python `s.lower()` on one character (ASCII range). -/
def pyLowerChar (c : Char) : Char :=
  if 65 ≤ c.toNat && c.toNat ≤ 90 then Char.ofNat (c.toNat + 32) else c

/-- Python `s.lower()`. -/
def pyLower (s : Str) : Str := s.map pyLowerChar

/-- Python `k.startswith(pre)`. -/
def pyStartsWith (l pre : Str) : Bool := pre.isPrefixOf l

/-- The contents of the source file: `some lines` when the file is readable
(one element per line, as Python iteration yields them), `none` when opening
or reading it raises. -/
abbrev FileState := Option (List Str)

/-- Truthiness test `if line.strip()` from `_load_file` (src/server.py
line 99): keep a line exactly when stripping whitespace leaves something. -/
def keptLine (l : Str) : Bool := !(pyStrip l).isEmpty

/-- `ServerConfig._load_file` (src/server.py lines 91-102): the set
`{line.rstrip('\n') for line in f if line.strip()}`, modelled by the list of
its elements (membership is all that is ever asked of it). -/
def loadFile (lines : List Str) : List Str :=
  (lines.filter keptLine).map pyRstripNl

/-- Python set membership `query in file_lines`. -/
def setMem (s : List Str) (q : Str) : Bool := s.any (fun x => x == q)

/-- The validated server configuration (class `ServerConfig`,
src/server.py lines 68-89): listening port, re-read flag, and the line set
loaded at construction (empty when `reread_on_query` is true). -/
structure ServerConfig where
  port : Int
  reread_on_query : Bool
  file_lines : List Str
deriving DecidableEq, Repr

/-- `ServerConfig.search_file` (src/server.py lines 104-124).  In re-read
mode the file is opened per query and scanned line by line, returning on the
first exact match of `line.rstrip('\n')`; a raised open/read error is caught
and turned into `False` (lines 120-122).  Otherwise the query is tested for
membership in the cached set. -/
def ServerConfig.search_file (cfg : ServerConfig) (fs : FileState) (query : Str) : Bool :=
  if cfg.reread_on_query then
    match fs with
    | some lines => lines.any (fun line => pyRstripNl line == query)
    | none => false
  else
    setMem cfg.file_lines query

/-- `data.rstrip(b'\x00')` (src/server.py line 146). -/
def rstripNul (data : List Byte) : List Byte :=
  (data.reverse.dropWhile (fun b => b == 0)).reverse

/-- Is `b` a UTF-8 continuation byte. -/
def isCont (b : Byte) : Bool := 128 ≤ b && b ≤ 191

/-- Valid second byte of a three-byte UTF-8 sequence with lead byte `b`
(excludes overlong encodings and surrogates). -/
def threeByteC1OK (b c1 : Byte) : Bool :=
  if b == 224 then 160 ≤ c1 && c1 ≤ 191
  else if b == 237 then 128 ≤ c1 && c1 ≤ 159
  else isCont c1

/-- Valid second byte of a four-byte UTF-8 sequence with lead byte `b`
(excludes overlong encodings and code points above U+10FFFF). -/
def fourByteC1OK (b c1 : Byte) : Bool :=
  if b == 240 then 144 ≤ c1 && c1 ≤ 191
  else if b == 244 then 128 ≤ c1 && c1 ≤ 143
  else isCont c1

/-- `bytes.decode('utf-8', errors='ignore')` (src/server.py line 151):
decode well-formed UTF-8 sequences and drop ill-formed subsequences
(maximal-subpart resynchronisation, a truncated sequence at end of input is
dropped). -/
def utf8DecodeIgnore : List Byte → Str
  | [] => []
  | b :: rest =>
    if b ≤ 127 then Char.ofNat b :: utf8DecodeIgnore rest
    else if 194 ≤ b && b ≤ 223 then
      match rest with
      | [] => []
      | c1 :: rest2 =>
        if isCont c1 then
          Char.ofNat ((b - 192) * 64 + (c1 - 128)) :: utf8DecodeIgnore rest2
        else utf8DecodeIgnore (c1 :: rest2)
    else if 224 ≤ b && b ≤ 239 then
      match rest with
      | [] => []
      | c1 :: rest2 =>
        if threeByteC1OK b c1 then
          match rest2 with
          | [] => []
          | c2 :: rest3 =>
            if isCont c2 then
              Char.ofNat ((b - 224) * 4096 + (c1 - 128) * 64 + (c2 - 128)) ::
                utf8DecodeIgnore rest3
            else utf8DecodeIgnore (c2 :: rest3)
        else utf8DecodeIgnore (c1 :: rest2)
    else if 240 ≤ b && b ≤ 244 then
      match rest with
      | [] => []
      | c1 :: rest2 =>
        if fourByteC1OK b c1 then
          match rest2 with
          | [] => []
          | c2 :: rest3 =>
            if isCont c2 then
              match rest3 with
              | [] => []
              | c3 :: rest4 =>
                if isCont c3 then
                  Char.ofNat ((b - 240) * 262144 + (c1 - 128) * 4096 +
                    (c2 - 128) * 64 + (c3 - 128)) :: utf8DecodeIgnore rest4
                else utf8DecodeIgnore (c3 :: rest4)
            else utf8DecodeIgnore (c2 :: rest3)
        else utf8DecodeIgnore (c1 :: rest2)
    else utf8DecodeIgnore rest

/-- The two response literals (src/server.py lines 156-157). -/
def respExists : Str := str "STRING EXISTS\n"

/-- The not-found response literal. -/
def respNotFound : Str := str "STRING NOT FOUND\n"

/-- `MyTCPHandler.handle` (src/server.py lines 133-165), as a function from
the bytes returned by `recv` to the list of response frames written on the
socket: strip trailing NUL bytes, decode as UTF-8 dropping undecodable
bytes, search, and send exactly one of the two literals.  The code performs
these steps unconditionally on whatever `recv` returned, including the empty
byte string. -/
def handle (cfg : ServerConfig) (fs : FileState) (data : List Byte) : List Str :=
  let stripped_data := rstripNul data
  let query := utf8DecodeIgnore stripped_data
  let response := if cfg.search_file fs query then respExists else respNotFound
  [response]

/-- The Python exception classes raised by the configuration code paths. -/
inductive PyError where
  | valueError
  | fileNotFound
  | attributeError
  | ioError
deriving DecidableEq, Repr

/-- A Python `dict` with string keys and values, as an insertion-ordered
association list with unique keys. -/
abbrev Dict := List (Str × Str)

/-- Python `d.get(k)` / `d[k]`: the value stored under the first (and, with
unique keys, only) binding of `k`. -/
def dictGet : Dict → Str → Option Str
  | [], _ => none
  | (k1, v1) :: rest, k => if k1 == k then some v1 else dictGet rest k

/-- Python `d[k] = v`: overwrite in place when the key exists, append
otherwise. -/
def dictSet : Dict → Str → Str → Dict
  | [], k, v => [(k, v)]
  | (k1, v1) :: rest, k, v =>
    if k1 == k then (k, v) :: rest else (k1, v1) :: dictSet rest k v

/-- One iteration of the key/value loop of `parse_config` (src/server.py
lines 48-59).  Keys arrive already lower-cased by `configparser`. -/
def parseStep (d : Dict) (kv : Str × Str) : Except PyError Dict :=
  if pyStartsWith kv.1 (str "linuxpath") then
    if kv.2.isEmpty then .error .valueError
    else .ok (dictSet d (str "linuxpath") kv.2)
  else if pyLower kv.1 == str "reread_on_query" then
    if pyLower kv.2 == str "true" || pyLower kv.2 == str "false" then
      .ok (dictSet d (str "REREAD_ON_QUERY") kv.2)
    else .error .valueError
  else .ok (dictSet d kv.1 kv.2)

/-- The full key/value loop of `parse_config`, over the section-flattened
sequence of configuration entries. -/
def parseEntries : Dict → List (Str × Str) → Except PyError Dict
  | d, [] => .ok d
  | d, kv :: rest =>
    match parseStep d kv with
    | .ok d1 => parseEntries d1 rest
    | .error e => .error e

/-- `parse_config` (src/server.py lines 27-66) applied to the ordered list
of `(key, value)` items of all sections of an existing configuration file:
run the loop, then require both `linuxpath` and `REREAD_ON_QUERY` to be
present (lines 61-64). -/
def parse_config (entries : List (Str × Str)) : Except PyError Dict :=
  match parseEntries [] entries with
  | .error e => .error e
  | .ok d =>
    if (dictGet d (str "linuxpath")).isNone then .error .valueError
    else if (dictGet d (str "REREAD_ON_QUERY")).isNone then .error .valueError
    else .ok d

/-- Digit run of a Python integer literal: decimal digits with single
underscores allowed between digits (the accumulator tracks the value, the
flag whether the previous character was a digit). -/
def parseDigitsAux : Str → Nat → Bool → Option Nat
  | [], acc, lastDigit => if lastDigit then some acc else none
  | c :: rest, acc, lastDigit =>
    if c.isDigit then parseDigitsAux rest (acc * 10 + (c.toNat - 48)) true
    else if c == '_' && lastDigit then parseDigitsAux rest acc false
    else none

/-- Python `int(s)` on a string: strip whitespace, optional sign, then a
non-empty underscore-separated digit run; `none` models the raised
`ValueError`. -/
def pyIntParse (s : Str) : Option Int :=
  match pyStrip s with
  | '+' :: rest => (parseDigitsAux rest 0 false).map Int.ofNat
  | '-' :: rest => (parseDigitsAux rest 0 false).map (fun n => -(Int.ofNat n))
  | rest => (parseDigitsAux rest 0 false).map Int.ofNat

/-- `ServerConfig.__init__` (src/server.py lines 80-89).  `linuxpathIsFile`
is the result of the `Path.is_file()` check; `startupFile` is the file
contents visible at construction time.  The statement order follows the
code: the port is parsed first (`int` raising `ValueError`), then the
`linuxpath` presence check (`ValueError`), the file check
(`FileNotFoundError`), the reread flag (`AttributeError` when absent, since
`None.lower()` is called), and finally the eager `_load_file` in cached
mode, whose open/read failure re-raises. -/
def ServerConfig.init (config_dict : Dict) (linuxpathIsFile : Bool)
    (startupFile : FileState) : Except PyError ServerConfig :=
  let portVal : Option Int :=
    match dictGet config_dict (str "port") with
    | none => some 44445
    | some s => pyIntParse s
  match portVal with
  | none => .error .valueError
  | some port =>
    match dictGet config_dict (str "linuxpath") with
    | none => .error .valueError
    | some _ =>
      if !linuxpathIsFile then .error .fileNotFound
      else
        match dictGet config_dict (str "REREAD_ON_QUERY") with
        | none => .error .attributeError
        | some r =>
          if pyLower r == str "true" then
            .ok { port := port, reread_on_query := true, file_lines := [] }
          else
            match startupFile with
            | none => .error .ioError
            | some lines =>
              .ok { port := port, reread_on_query := false,
                    file_lines := loadFile lines }


theorem resp_distinct : respExists ≠ respNotFound := by decide

theorem dropWhile_replicate_append {α : Type} (p : α → Bool) (a : α) (h : p a = true)
    (k : Nat) (l : List α) :
    List.dropWhile p (List.replicate k a ++ l) = List.dropWhile p l := by
  induction k with
  | zero => simp
  | succ n ih => simp [List.replicate_succ, List.dropWhile_cons, h, ih]

theorem rstripNul_append_replicate (b : List Byte) (k : Nat) :
    rstripNul (b ++ List.replicate k 0) = rstripNul b := by
  unfold rstripNul
  rw [List.reverse_append, List.reverse_replicate,
    dropWhile_replicate_append _ 0 (by decide) k b.reverse]

theorem pyStrip_eq_nil_of_all_space (l : Str) (h : l.all pyIsSpace = true) :
    pyStrip l = [] := by
  have hd : l.dropWhile pyIsSpace = [] := by
    rw [List.dropWhile_eq_nil_iff]
    intro x hx
    exact List.all_eq_true.mp h x hx
  rw [pyStrip, hd]
  rfl

theorem all_space_of_rstripNl {l q : Str} (h : pyRstripNl l = q)
    (hq : q.all pyIsSpace = true) : l.all pyIsSpace = true := by
  rw [List.all_eq_true]
  intro x hx
  have hx2 : x ∈ l.reverse := List.mem_reverse.mpr hx
  have hsplit := List.takeWhile_append_dropWhile (fun c => c == '\n') l.reverse
  rw [← hsplit] at hx2
  rcases List.mem_append.mp hx2 with h1 | h2
  · have hnl := List.mem_takeWhile_imp h1
    have hx3 : x = '\n' := by simpa using hnl
    subst hx3
    decide
  · have hq2 : List.dropWhile (fun c => c == '\n') l.reverse = q.reverse := by
      have h3 := congrArg List.reverse h
      simpa [pyRstripNl, pyRstrip] using h3
    rw [hq2] at h2
    exact List.all_eq_true.mp hq x (List.mem_reverse.mp h2)


/-- Claim C1 (counterexample): the claim as stated fails.  The one-line file
whose single line is a lone space consists of unique, non-empty lines, yet
for the query consisting of one space the cached strategy answers `false`
(the line is dropped by the `if line.strip()` filter of `_load_file`) while
the live strategy answers `true`. -/
theorem C1_blank_line_disagreement :
    ([str " "] : List Str).Nodup ∧ (∀ l ∈ ([str " "] : List Str), l ≠ ([] : Str)) ∧
    ServerConfig.search_file
        (ServerConfig.mk 44445 false (loadFile [str " "])) (some [str " "]) (str " ")
      = false ∧
    ServerConfig.search_file
        (ServerConfig.mk 44445 true []) (some [str " "]) (str " ")
      = true := by
  exact ⟨by decide, by decide, by decide, by decide⟩

/-- Claim C1 (amended): for a source file none of whose lines is
whitespace-only (so the `if line.strip()` filter keeps every line), the
cached strategy (`reread_on_query = false`, membership in the set loaded at
startup) and the live strategy (`reread_on_query = true`, per-query scan of
the same on-disk content) of `search_file` return the same boolean answer
for every query. -/
theorem C1_cached_live_agree (port : Int) (lines : List Str) (q : Str)
    (h : ∀ l ∈ lines, (pyStrip l).isEmpty = false) :
    ServerConfig.search_file
        (ServerConfig.mk port false (loadFile lines)) (some lines) q
      = ServerConfig.search_file (ServerConfig.mk port true []) (some lines) q := by
  have hf : lines.filter keptLine = lines :=
    List.filter_eq_self.mpr (fun l hl => by simp [keptLine, h l hl])
  simp [ServerConfig.search_file, setMem, loadFile, hf, List.any_map, Function.comp]
  rfl

/-- Claim C1 (witness): the amended equivalence applied to the file whose
single line is `alpha` and the query `alpha`. -/
theorem C1_cached_live_agree_witness :
    (∀ l ∈ ([str "alpha\n"] : List Str), (pyStrip l).isEmpty = false) ∧
    ServerConfig.search_file
        (ServerConfig.mk 44445 false (loadFile [str "alpha\n"]))
        (some [str "alpha\n"]) (str "alpha")
      = ServerConfig.search_file (ServerConfig.mk 44445 true [])
        (some [str "alpha\n"]) (str "alpha") :=
  ⟨by decide, C1_cached_live_agree 44445 [str "alpha\n"] (str "alpha") (by decide)⟩

/-- Claim C2 (code evaluated at the failing input): the handler does not
strip a trailing line terminator from the decoded query, so with the file of
§8 of the spec (lines `alpha` and `beta line`) the request bytes `alpha\n`
produce `STRING NOT FOUND\n` in both modes, while the bytes `alpha` without
terminator produce `STRING EXISTS\n`. -/
theorem C2_handler_keeps_trailing_newline :
    handle (ServerConfig.mk 44445 true [])
        (some [str "alpha\n", str "beta line\n"]) (asciiBytes "alpha\n")
      = [respNotFound] ∧
    handle (ServerConfig.mk 44445 false (loadFile [str "alpha\n", str "beta line\n"]))
        none (asciiBytes "alpha\n")
      = [respNotFound] ∧
    handle (ServerConfig.mk 44445 true [])
        (some [str "alpha\n", str "beta line\n"]) (asciiBytes "alpha")
      = [respExists] := by
  exact ⟨by decide, by decide, by decide⟩

/-- Claim C3 (counterexample): when `recv` returns zero bytes the handler
does not terminate silently: it processes the empty byte string like any
other request and writes a response frame (here `STRING NOT FOUND\n`). -/
theorem C3_empty_recv_writes_frame :
    handle (ServerConfig.mk 44445 false (loadFile [str "alpha\n"]))
        (some [str "alpha\n"]) [] = [respNotFound] ∧
    handle (ServerConfig.mk 44445 false (loadFile [str "alpha\n"]))
        (some [str "alpha\n"]) [] ≠ ([] : List Str) := by
  exact ⟨by decide, by decide⟩

/-- Claim C3 (amended): when the receive operation returns zero bytes the
handler treats the empty byte string as the empty query and writes exactly
the response frame determined by searching for the empty string. -/
theorem C3_empty_recv_response (cfg : ServerConfig) (fs : FileState) :
    handle cfg fs [] =
      [if cfg.search_file fs [] then respExists else respNotFound] := rfl

/-- Claim C4: in reread mode, when opening or reading the source file fails
at query time (the `except` branch of `search_file`, modelled by the `none`
file state), the handler still writes the `STRING NOT FOUND\n` response;
the failure is an ordinary return, not a propagating exception. -/
theorem C4_read_failure_not_found (cfg : ServerConfig) (data : List Byte)
    (h : cfg.reread_on_query = true) :
    handle cfg none data = [respNotFound] := by
  simp [handle, ServerConfig.search_file, h]

/-- Claim C4 (witness): the reread configuration with unreadable file and
the request bytes `alpha`. -/
theorem C4_read_failure_not_found_witness :
    handle (ServerConfig.mk 44445 true []) none (asciiBytes "alpha")
      = [respNotFound] :=
  C4_read_failure_not_found _ _ rfl

/-- Claim C5: every list of frames the handler writes is the single frame
`STRING EXISTS\n` or the single frame `STRING NOT FOUND\n`, and it is
`STRING EXISTS\n` exactly when `search_file` returned true on the decoded
query. -/
theorem C5_response_shape (cfg : ServerConfig) (fs : FileState) (data : List Byte) :
    (handle cfg fs data = [respExists] ∨ handle cfg fs data = [respNotFound]) ∧
    (handle cfg fs data = [respExists] ↔
      cfg.search_file fs (utf8DecodeIgnore (rstripNul data)) = true) := by
  unfold handle
  cases hsf : cfg.search_file fs (utf8DecodeIgnore (rstripNul data)) with
  | false => simp [hsf]; exact fun hh => resp_distinct hh.symm
  | true => simp [hsf]

/-- Claim C6: a request byte sequence padded with trailing NUL bytes (both
fitting in the 1024-byte read) decodes to the same query and produces the
same handler output as the unpadded sequence. -/
theorem C6_nul_padding_invariant (cfg : ServerConfig) (fs : FileState)
    (b : List Byte) (k : Nat)
    (h1 : b.length ≤ 1024) (h2 : b.length + k ≤ 1024) :
    utf8DecodeIgnore (rstripNul (b ++ List.replicate k 0)) =
      utf8DecodeIgnore (rstripNul b) ∧
    handle cfg fs (b ++ List.replicate k 0) = handle cfg fs b := by
  have hr : rstripNul (b ++ List.replicate k 0) = rstripNul b :=
    rstripNul_append_replicate b k
  exact ⟨by rw [hr], by unfold handle; rw [hr]⟩

/-- Claim C6 (witness): the bytes of `alpha` padded with ten NUL bytes, as
in scenario 3 of §8 of the spec. -/
theorem C6_nul_padding_invariant_witness :
    (asciiBytes "alpha").length ≤ 1024 ∧ (asciiBytes "alpha").length + 10 ≤ 1024 ∧
    handle (ServerConfig.mk 44445 true []) (some [str "alpha\n"])
        (asciiBytes "alpha" ++ List.replicate 10 0)
      = handle (ServerConfig.mk 44445 true []) (some [str "alpha\n"])
        (asciiBytes "alpha") :=
  ⟨by decide, by decide,
    (C6_nul_padding_invariant (ServerConfig.mk 44445 true []) (some [str "alpha\n"])
      (asciiBytes "alpha") 10 (by decide) (by decide)).2⟩

/-- Claim C7: in cached mode `search_file` reads only the construction-time
set: its answer is independent of the current file state (no mutation of the
set, no observation of later edits), it is literally membership in that set,
and it is `false` for every query outside the set no matter what the file
now contains. -/
theorem C7_cached_set_frozen (cfg : ServerConfig) (h : cfg.reread_on_query = false) :
    (∀ fs fs2 q, cfg.search_file fs q = cfg.search_file fs2 q) ∧
    (∀ fs q, cfg.search_file fs q = setMem cfg.file_lines q) ∧
    (∀ fs q, setMem cfg.file_lines q = false → cfg.search_file fs q = false) := by
  simp [ServerConfig.search_file, h]

/-- Claim C7 (witness): a cached configuration built from the file `alpha`;
after the file changes to contain `gamma`, searching `gamma` still returns
false. -/
theorem C7_cached_set_frozen_witness :
    ServerConfig.search_file (ServerConfig.mk 44445 false (loadFile [str "alpha\n"]))
      (some [str "gamma\n"]) (str "gamma") = false :=
  (C7_cached_set_frozen _ rfl).2.2 (some [str "gamma\n"]) (str "gamma") (by decide)

/-- Claim C9: a whitespace-only query (including the empty query) is never
found in cached mode, even when the file contains exactly such a line,
because `_load_file` filters out every line whose `strip()` is empty; in
reread mode any file line whose newline-stripped content equals the query
does match. -/
theorem C9_blank_lines_cached_excluded (lines : List Str) (q : Str)
    (hq : q.all pyIsSpace = true) :
    setMem (loadFile lines) q = false ∧
    (∀ port fs, ServerConfig.search_file
        (ServerConfig.mk port false (loadFile lines)) fs q = false) ∧
    (∀ l, pyRstripNl l = q → ∀ port pre post,
      ServerConfig.search_file (ServerConfig.mk port true [])
        (some (pre ++ l :: post)) q = true) := by
  have h1 : setMem (loadFile lines) q = false := by
    rw [setMem, loadFile, List.any_map, List.any_eq_false]
    intro l hl
    rcases List.mem_filter.mp hl with ⟨hmem, hkept⟩
    intro hbeq
    have heq : pyRstripNl l = q := by simpa [Function.comp] using hbeq
    have hall : l.all pyIsSpace = true := all_space_of_rstripNl heq hq
    have hnil : pyStrip l = [] := pyStrip_eq_nil_of_all_space l hall
    simp [keptLine, hnil] at hkept
  refine ⟨h1, fun port fs => by simpa [ServerConfig.search_file] using h1,
    fun l hl port pre post => ?_⟩
  simp [ServerConfig.search_file, List.any_append, hl]

/-- Claim C9 (witness): the file whose single line is a space followed by a
newline, queried with the single-space string in both modes. -/
theorem C9_blank_lines_cached_excluded_witness :
    (str " ").all pyIsSpace = true ∧
    setMem (loadFile [str " \n"]) (str " ") = false ∧
    ServerConfig.search_file (ServerConfig.mk 44445 true [])
      (some (([] : List Str) ++ (str " \n") :: [])) (str " ") = true :=
  ⟨by decide, (C9_blank_lines_cached_excluded [str " \n"] (str " ") (by decide)).1,
    (C9_blank_lines_cached_excluded [str " \n"] (str " ") (by decide)).2.2
      (str " \n") (by decide) 44445 [] []⟩


theorem pyStartsWith_refl (a : Str) : pyStartsWith a a = true := by
  simp [pyStartsWith, List.isPrefixOf_iff_prefix]

theorem dictGet_dictSet_self (d : Dict) (k v : Str) :
    dictGet (dictSet d k v) k = some v := by
  induction d with
  | nil => simp [dictSet, dictGet]
  | cons p rest ih =>
    obtain ⟨k1, v1⟩ := p
    by_cases h : k1 = k
    · subst h; simp [dictSet, dictGet]
    · simp [dictSet, dictGet, h, ih]

theorem dictGet_dictSet_ne (d : Dict) (k k2 v : Str) (h : k ≠ k2) :
    dictGet (dictSet d k v) k2 = dictGet d k2 := by
  induction d with
  | nil => simp [dictSet, dictGet, h]
  | cons p rest ih =>
    obtain ⟨k1, v1⟩ := p
    by_cases h1 : k1 = k
    · subst h1; simp [dictSet, dictGet, h]
    · by_cases h2 : k1 = k2
      · subst h2; simp [dictSet, dictGet, h1]
      · simp [dictSet, dictGet, h1, h2, ih]

theorem parseEntries_append (l1 l2 : List (Str × Str)) (d : Dict) :
    parseEntries d (l1 ++ l2) =
      match parseEntries d l1 with
      | .ok d1 => parseEntries d1 l2
      | .error e => .error e := by
  induction l1 generalizing d with
  | nil => simp [parseEntries]
  | cons kv rest ih =>
    simp only [List.cons_append, parseEntries]
    cases parseStep d kv with
    | ok d1 => simp [ih]
    | error e => simp

theorem parseEntries_linuxpath (entries : List (Str × Str)) :
    ∀ d0 d, parseEntries d0 entries = .ok d →
      dictGet d (str "linuxpath") =
        match entries.reverse.find? (fun p => pyStartsWith p.1 (str "linuxpath")) with
        | some p => some p.2
        | none => dictGet d0 (str "linuxpath") := by
  induction entries with
  | nil =>
    intro d0 d h
    simp [parseEntries] at h
    subst h
    simp
  | cons kv rest ih =>
    intro d0 d h
    simp only [parseEntries] at h
    cases hstep : parseStep d0 kv with
    | error e => rw [hstep] at h; simp at h
    | ok d1 =>
      rw [hstep] at h
      have ihh := ih d1 d h
      rw [List.reverse_cons, List.find?_append]
      cases hfind : rest.reverse.find? (fun p => pyStartsWith p.1 (str "linuxpath")) with
      | some p =>
        rw [hfind] at ihh
        simpa using ihh
      | none =>
        rw [hfind] at ihh
        simp only [Option.none_or, List.find?_cons, List.find?_nil]
        unfold parseStep at hstep
        by_cases hlp : pyStartsWith kv.1 (str "linuxpath") = true
        · rw [if_pos hlp] at hstep
          by_cases hemp : kv.2.isEmpty
          · rw [if_pos hemp] at hstep; simp at hstep
          · rw [if_neg hemp] at hstep
            simp only [Except.ok.injEq] at hstep
            simp only [hlp]
            rw [ihh, ← hstep]
            exact dictGet_dictSet_self d0 _ kv.2
        · have hlp2 : pyStartsWith kv.1 (str "linuxpath") = false := by
            simpa using hlp
          rw [if_neg hlp] at hstep
          have hne : kv.1 ≠ str "linuxpath" := by
            intro heq
            rw [heq, pyStartsWith_refl] at hlp2
            simp at hlp2
          simp only [hlp2]
          rw [ihh]
          by_cases hrr : (pyLower kv.1 == str "reread_on_query") = true
          · rw [if_pos hrr] at hstep
            by_cases htok : (pyLower kv.2 == str "true" || pyLower kv.2 == str "false") = true
            · rw [if_pos htok] at hstep
              simp only [Except.ok.injEq] at hstep
              rw [← hstep]
              exact dictGet_dictSet_ne d0 _ _ kv.2 (by decide)
            · rw [if_neg htok] at hstep; simp at hstep
          · rw [if_neg hrr] at hstep
            simp only [Except.ok.injEq] at hstep
            rw [← hstep]
            exact dictGet_dictSet_ne d0 _ _ kv.2 hne


/-- Claim C10: `parse_config` treats every key starting with `linuxpath`
(for example `linuxpath2`) as supplying the source-file path; an empty value
raises `ValueError`; when several such keys occur across the file, the
stored path is the value of the last one encountered. -/
theorem C10_linuxpath_prefix_last_wins :
    (∀ entries d, parse_config entries = .ok d →
      dictGet d (str "linuxpath") =
        (entries.reverse.find? (fun p => pyStartsWith p.1 (str "linuxpath"))).map
          (fun p => p.2)) ∧
    (∀ pre k post d0, pyStartsWith k (str "linuxpath") = true →
      parseEntries [] pre = .ok d0 →
      parse_config (pre ++ (k, ([] : Str)) :: post) = .error .valueError) := by
  constructor
  · intro entries d h
    unfold parse_config at h
    split at h
    · simp at h
    · rename_i d2 hpe
      split at h
      · simp at h
      · split at h
        · simp at h
        · have hd : d2 = d := by simpa using h
          subst hd
          have hinv := parseEntries_linuxpath entries [] d2 hpe
          rw [hinv]
          cases entries.reverse.find? (fun p => pyStartsWith p.1 (str "linuxpath")) with
          | some p => simp
          | none => simp [dictGet]
  · intro pre k post d0 hk hpre
    unfold parse_config
    rw [parseEntries_append, hpre]
    simp only [parseEntries, parseStep, hk, if_pos, List.isEmpty_nil, if_true]

/-- Claim C10 (witness): a config with `linuxpath`, `reread_on_query` and
`linuxpath2` entries stores the `linuxpath2` value, and a lone
`linuxpath2` entry with empty value is rejected. -/
theorem C10_witness :
    dictGet [(str "linuxpath", str "/b"), (str "REREAD_ON_QUERY", str "True")]
        (str "linuxpath")
      = (([(str "linuxpath", str "/a"), (str "reread_on_query", str "True"),
          (str "linuxpath2", str "/b")] : List (Str × Str)).reverse.find?
          (fun p => pyStartsWith p.1 (str "linuxpath"))).map (fun p => p.2) ∧
    parse_config (([] : List (Str × Str)) ++ (str "linuxpath2", ([] : Str)) :: [])
      = .error .valueError :=
  ⟨C10_linuxpath_prefix_last_wins.1
      [(str "linuxpath", str "/a"), (str "reread_on_query", str "True"),
        (str "linuxpath2", str "/b")]
      [(str "linuxpath", str "/b"), (str "REREAD_ON_QUERY", str "True")] rfl,
    C10_linuxpath_prefix_last_wins.2 [] (str "linuxpath2") [] [] (by decide) rfl⟩

/-- Claim C8 (counterexample): the claim requires construction to fail
unless the port value parses as a positive integer, but the value `0`
parses as the non-positive integer 0 and `ServerConfig` construction
succeeds with port 0. -/
theorem C8_zero_port_accepted :
    pyIntParse (str "0") = some 0 ∧
    ServerConfig.init [(str "port", str "0"), (str "linuxpath", str "/etc/f"),
        (str "REREAD_ON_QUERY", str "True")] true (some [])
      = .ok (ServerConfig.mk 0 true []) :=
  ⟨rfl, rfl⟩

/-- Claim C8 (amended): the port takes the value 44445 when the `port` key
is absent; when present, construction succeeds with the parsed value exactly
when the value parses as a Python integer (sign allowed, zero and negative
values accepted), and otherwise fails with `ValueError` before the server
starts serving. -/
theorem C8_port_parse_semantics (d : Dict) (isf : Bool) (fsb : FileState) :
    (dictGet d (str "port") = none →
      ∀ cfg, ServerConfig.init d isf fsb = .ok cfg → cfg.port = 44445) ∧
    (∀ s, dictGet d (str "port") = some s → pyIntParse s = none →
      ServerConfig.init d isf fsb = .error .valueError) ∧
    (∀ s n, dictGet d (str "port") = some s → pyIntParse s = some n →
      ∀ cfg, ServerConfig.init d isf fsb = .ok cfg → cfg.port = n) := by
  refine ⟨?_, ?_, ?_⟩
  · intro h cfg hcfg
    simp only [ServerConfig.init, h] at hcfg
    repeat' split at hcfg
    all_goals simp_all
    all_goals rw [← hcfg]
  · intro s hs hp
    simp [ServerConfig.init, hs, hp]
  · intro s n hs hp cfg hcfg
    simp only [ServerConfig.init, hs, hp] at hcfg
    repeat' split at hcfg
    all_goals simp_all
    all_goals rw [← hcfg]

/-- Claim C8 (witness): the amended rule applied to an unparseable port
value. -/
theorem C8_witness :
    ServerConfig.init [(str "port", str "abc"), (str "linuxpath", str "/etc/f"),
        (str "REREAD_ON_QUERY", str "True")] true (some [])
      = .error .valueError :=
  (C8_port_parse_semantics [(str "port", str "abc"), (str "linuxpath", str "/etc/f"),
      (str "REREAD_ON_QUERY", str "True")] true (some [])).2.1
    (str "abc") rfl rfl

end TextLineServer
